import Mathlib

/-!
Verification of the Tenable TVM health-check core against its specification.

The development shallowly embeds the three core components of the repository
(`src/analyzers/gap_analyzer.py`, `src/core/maturity_engine.py`,
`src/core/recommendation_engine.py`) as executable Lean functions and proves
the specified properties about them.

Modelling conventions:
* Python `float` arithmetic is embedded as exact rational arithmetic (`ℚ`).
  Every value the code rounds or compares is an exact decimal here.
* `round(x, n)` is embedded as round-half-to-even on `ℚ` (Python's semantics
  on exact decimal values).
* Timestamp strings are embedded by their parse result at the fixed current
  time `now`: `none` = missing/empty value, `some none` = present but
  unparseable string, `some (some d)` = parses to a datetime `d` whole days
  before `now` (`(now - dt).days`, possibly negative for future stamps).
* Python division raises `ZeroDivisionError` on a zero denominator, so the
  analyzer checks that divide are embedded in the `Except String` monad with
  a checked division.
-/

/-- Round-half-to-even to an integer, as Python's builtin `round` behaves on
exact decimal values. -/
def pyRound (q : ℚ) : ℤ :=
  if q - ⌊q⌋ < 1/2 then ⌊q⌋
  else if q - ⌊q⌋ > 1/2 then ⌊q⌋ + 1
  else if ⌊q⌋ % 2 = 0 then ⌊q⌋ else ⌊q⌋ + 1

/-- Python `round(q, 2)`. -/
def round2 (q : ℚ) : ℚ := (pyRound (q * 100) : ℚ) / 100

/-- Python `round(q, 1)`. -/
def round1 (q : ℚ) : ℚ := (pyRound (q * 10) : ℚ) / 10

/-- Python's decimal rendering of a nonnegative float holding one decimal
place (as produced by `round(x, 1)`), e.g. `"30.0"`, `"33.3"`.  Used to embed
f-string interpolation of the percentage values. -/
def fmtPct (q : ℚ) : String :=
  let t := (pyRound (q * 10)).toNat
  toString (t / 10) ++ "." ++ toString (t % 10)

/-- Python `needle in hay` on strings (substring containment). -/
def strContains (hay needle : String) : Bool :=
  (hay.splitOn needle).length > 1

/-- Python `repr` of a list of strings, e.g. `['Windows', 'SSH/Linux']`,
as interpolated by f-strings. -/
def pyListRepr (l : List String) : String :=
  "[" ++ String.intercalate ", " (l.map (fun s => "\x27" ++ s ++ "\x27")) ++ "]"

/-- Checked division: Python `a / b` raises `ZeroDivisionError` when `b = 0`. -/
def pyDivQ (a b : ℚ) : Except String ℚ :=
  if b = 0 then .error "ZeroDivisionError: division by zero" else .ok (a / b)

/-! ## Data model (`src/models/assessment.py`) -/

/-- `Severity` (str enum). -/
inductive Severity
  | critical
  | high
  | medium
  | low
  | info
deriving DecidableEq

/-- `Severity.value` (the string value of the str enum). -/
def Severity.value : Severity → String
  | .critical => "critical"
  | .high => "high"
  | .medium => "medium"
  | .low => "low"
  | .info => "info"

/-- `severity.upper()` on the enum's string value. -/
def Severity.upper (s : Severity) : String :=
  match s with
  | .critical => "CRITICAL"
  | .high => "HIGH"
  | .medium => "MEDIUM"
  | .low => "LOW"
  | .info => "INFO"

/-- `MaturityLevel` (str enum). -/
inductive MaturityLevel
  | initial
  | developing
  | defined
  | managed
  | optimized
deriving DecidableEq

/-- `FindingCategory` (str enum). -/
inductive FindingCategory
  | scannerHealth
  | scanPolicy
  | credentialCoverage
  | assetCoverage
  | tagManagement
  | programMaturity
deriving DecidableEq

/-- `FindingCategory.value`. -/
def FindingCategory.value : FindingCategory → String
  | .scannerHealth => "Scanner Health"
  | .scanPolicy => "Scan Policy"
  | .credentialCoverage => "Credential Coverage"
  | .assetCoverage => "Asset Coverage"
  | .tagManagement => "Tag Management"
  | .programMaturity => "Program Maturity"

/-- `Finding` (pydantic model). -/
structure Finding where
  id : String
  title : String
  category : FindingCategory
  severity : Severity
  description : String
  evidence : Option String
  recommendation : String
  effort : String
deriving DecidableEq

/-- `Recommendation` (pydantic model). -/
structure Recommendation where
  priority : Nat
  title : String
  description : String
  findings_refs : List String
  type : String
deriving DecidableEq

/-! ## Maturity engine (`src/core/maturity_engine.py`) -/

namespace MaturityEngine

/-- `WEIGHTS.get(severity, 0)`: the module-level `WEIGHTS` dict has no entry
for `Severity.INFO`, so `.get` yields the default `0` there. -/
def weightsGet : Severity → ℚ
  | .critical => -1
  | .high => -1/2
  | .medium => -1/4
  | .low => -1/10
  | .info => 0

/-- `MaturityEngine.BASE`. -/
def BASE : ℚ := 7/2

/-- `MaturityEngine._level`. -/
def level (score : ℚ) : MaturityLevel :=
  if score ≥ 9/2 then .optimized
  else if score ≥ 7/2 then .managed
  else if score ≥ 5/2 then .defined
  else if score ≥ 3/2 then .developing
  else .initial

/-- `MaturityEngine.calculate`.  The metrics dict is represented by the value
of its `"authenticated_scans_pct"` key (`none` when the key is absent;
`metrics.get(..., 0)` then yields `0`). -/
def calculate (findings : List Finding) (metrics : Option ℚ) : ℚ × MaturityLevel :=
  let raw := findings.foldl (fun s f => s + weightsGet f.severity) BASE
  let auth_pct := metrics.getD 0
  let bonused :=
    if auth_pct ≥ 90 then raw + 1/2
    else if auth_pct ≥ 70 then raw + 1/4
    else raw
  let score := round2 (max 1 (min 5 bonused))
  (score, level score)

end MaturityEngine

/-! Claim-side formulations of the maturity algorithm, written from the
specification's wording, to be compared with the source embedding above. -/

/-- Per-finding severity penalty as worded in the specification
(Critical −1.0, High −0.5, Medium −0.25, Low −0.1, Info 0). -/
def claimPenalty : Severity → ℚ
  | .critical => -1
  | .high => -1/2
  | .medium => -1/4
  | .low => -1/10
  | .info => 0

/-- Authenticated-scan bonus as worded in the specification
(+0.5 if ≥ 90, else +0.25 if ≥ 70, else 0). -/
def claimBonus (metrics : Option ℚ) : ℚ :=
  if metrics.getD 0 ≥ 90 then 1/2 else if metrics.getD 0 ≥ 70 then 1/4 else 0

/-- Clamp to the interval [1, 5]. -/
def clampScore (q : ℚ) : ℚ := min 5 (max 1 q)

/-- The score as worded in the claim: 3.5 plus the summed penalties plus the
bonus, clamped to [1.0, 5.0], rounded to 2 decimal places. -/
def claimScore (findings : List Finding) (metrics : Option ℚ) : ℚ :=
  round2 (clampScore (7/2 + (findings.map (fun f => claimPenalty f.severity)).sum
    + claimBonus metrics))

/-- Level mapping by inclusive lower bounds on the score, as worded in the
claim: ≥ 4.5 Optimized, ≥ 3.5 Managed, ≥ 2.5 Defined, ≥ 1.5 Developing,
otherwise Initial. -/
def claimLevel (score : ℚ) : MaturityLevel :=
  if score ≥ 9/2 then .optimized
  else if score ≥ 7/2 then .managed
  else if score ≥ 5/2 then .defined
  else if score ≥ 3/2 then .developing
  else .initial

/-- A finding with the given severity (the maturity engine only reads the
severity field). -/
def sampleFinding (s : Severity) : Finding :=
  { id := "F-001", title := "t", category := .programMaturity, severity := s,
    description := "d", evidence := none, recommendation := "r", effort := "low" }

/-! ## Recommendation engine (`src/core/recommendation_engine.py`) -/

namespace RecommendationEngine

/-- `PRIORITY.get(severity, 5)`: the module-level `PRIORITY` dict has no
entry for `Severity.INFO`, so `.get` yields the default `5` there. -/
def PRIORITY : Severity → ℕ
  | .critical => 1
  | .high => 2
  | .medium => 3
  | .low => 4
  | .info => 5

/-- `CATEGORY_TYPE.get(category, "strategic")`: `PROGRAM_MATURITY` is not in
the dict, so `.get` yields the default `"strategic"` there. -/
def CATEGORY_TYPE : FindingCategory → String
  | .scannerHealth => "quick-win"
  | .scanPolicy => "quick-win"
  | .credentialCoverage => "strategic"
  | .assetCoverage => "strategic"
  | .tagManagement => "roadmap"
  | .programMaturity => "strategic"

/-- One step of `by_category.setdefault(f.category, []).append(f)`. -/
def upsertGroup (groups : List (FindingCategory × List Finding)) (f : Finding) :
    List (FindingCategory × List Finding) :=
  match groups with
  | [] => [(f.category, [f])]
  | (c, items) :: rest =>
    if c = f.category then (c, items ++ [f]) :: rest
    else (c, items) :: upsertGroup rest f

/-- `by_category` built with dict `setdefault`: a Python dict keeps
first-insertion key order, and findings keep list order within each group. -/
def groupByCategory (findings : List Finding) : List (FindingCategory × List Finding) :=
  findings.foldl upsertGroup []

/-- Comparison used by `items.sort(key=lambda f: PRIORITY.get(f.severity, 5))`;
Python's `list.sort` is stable, which `List.insertionSort` models exactly. -/
def findingLe (a b : Finding) : Prop := PRIORITY a.severity ≤ PRIORITY b.severity

instance : DecidableRel findingLe := fun a b =>
  inferInstanceAs (Decidable (PRIORITY a.severity ≤ PRIORITY b.severity))

instance : IsTotal Finding findingLe :=
  ⟨fun a b => Nat.le_total (PRIORITY a.severity) (PRIORITY b.severity)⟩

instance : IsTrans Finding findingLe :=
  ⟨fun _ _ _ hab hbc => Nat.le_trans hab hbc⟩

/-- Comparison used by `recs.sort(key=lambda r: r.priority)` (stable). -/
def recLe (a b : Recommendation) : Prop := a.priority ≤ b.priority

instance : DecidableRel recLe := fun a b =>
  inferInstanceAs (Decidable (a.priority ≤ b.priority))

/-- Body of the per-category loop of `generate`.  The source reads `items[0]`
after the in-place sort; groups produced by `groupByCategory` are never
empty, so the `[]` branch below is unreachable (the source would raise
`IndexError` there). -/
def mkRec (category : FindingCategory) (items : List Finding) : Recommendation :=
  let sorted := List.insertionSort findingLe items
  let topPriority :=
    match sorted with
    | [] => 5
    | top :: _ => PRIORITY top.severity
  { priority := topPriority,
    title := "Remediate " ++ category.value ++ " (" ++ toString items.length
      ++ " finding(s))",
    description := String.intercalate "\n"
      ((sorted.take 3).map (fun f => "• [" ++ f.severity.upper ++ "] "
        ++ f.recommendation)),
    findings_refs := sorted.map (fun f => f.id),
    type := CATEGORY_TYPE category }

/-- `for i, r in enumerate(recs, 1): r.priority = i`. -/
def reassign (i : ℕ) : List Recommendation → List Recommendation
  | [] => []
  | r :: rest => { r with priority := i } :: reassign (i + 1) rest

/-- `RecommendationEngine.generate`. -/
def generate (findings : List Finding) : List Recommendation :=
  let recs := (groupByCategory findings).map (fun g => mkRec g.1 g.2)
  reassign 1 (List.insertionSort recLe recs)

end RecommendationEngine

/-! Claim-side formulation of the recommendation ordering, written from the
specification's wording. -/

open RecommendationEngine in
/-- The severity rank of a group's most severe finding (Critical=1, High=2,
Medium=3, Low=4, unknown=5): the minimum rank over the group. -/
def groupRank (items : List Finding) : ℕ :=
  (items.map (fun f => PRIORITY f.severity)).foldr min 5

/-- Pair each list element with its position (first-appearance index). -/
def numberFrom {α : Type} (n : ℕ) : List α → List (ℕ × α)
  | [] => []
  | a :: l => (n, a) :: numberFrom (n + 1) l

/-- Lexicographic comparison on (key, original position): sorting by it is
the unique stable sort by the key. -/
def lexByKey {α : Type} (key : α → ℕ) (p q : ℕ × α) : Prop :=
  key p.2 < key q.2 ∨ (key p.2 = key q.2 ∧ p.1 ≤ q.1)

instance {α : Type} (key : α → ℕ) : DecidableRel (lexByKey key) := fun p q =>
  inferInstanceAs (Decidable (_ ∨ _))

open RecommendationEngine in
/-- Group ordering as worded in the claim: ascending by the severity rank of
the group's most severe finding, ties broken by the order in which the
categories first appear in the input findings. -/
def claimGroupLe (p q : ℕ × (FindingCategory × List Finding)) : Prop :=
  groupRank p.2.2 < groupRank q.2.2
  ∨ (groupRank p.2.2 = groupRank q.2.2 ∧ p.1 ≤ q.1)

instance : DecidableRel claimGroupLe := fun p q =>
  inferInstanceAs (Decidable (_ ∨ _))

open RecommendationEngine in
/-- `generate` as described by the claim: one recommendation per category
group, ordered by `claimGroupLe`, with priorities re-assigned to be the
1-based rank in the final order. -/
def generateSpec (findings : List Finding) : List Recommendation :=
  let groups := groupByCategory findings
  let sortedGroups := List.insertionSort claimGroupLe (numberFrom 0 groups)
  reassign 1 (sortedGroups.map (fun g => mkRec g.2.1 g.2.2))

/-- The distinct categories of a findings list, in first-appearance order. -/
def distinctCats (findings : List Finding) : List FindingCategory :=
  findings.foldl
    (fun acc f => if f.category ∈ acc then acc else acc ++ [f.category]) []

/-! ## Gap analyzer (`src/analyzers/gap_analyzer.py`) -/

namespace GapAnalyzer

/-- Hex digit, case-insensitive (the UUID regex is compiled `IGNORECASE`). -/
def isHexDigit (c : Char) : Bool :=
  c.isDigit || (Char.ofNat 97 ≤ c && c ≤ Char.ofNat 102)
    || (Char.ofNat 65 ≤ c && c ≤ Char.ofNat 70)

/-- Consume exactly `n` hex digits. -/
def takeHex : ℕ → List Char → Option (List Char)
  | 0, cs => some cs
  | _ + 1, [] => none
  | n + 1, c :: cs => if isHexDigit c then takeHex n cs else none

/-- Consume one `-`. -/
def takeDash : List Char → Option (List Char)
  | [] => none
  | c :: cs => if c = Char.ofNat 45 then some cs else none

/-- `_UUID_RE.match(s)`: `re.match` anchors at the start only, and the
pattern `[0-9a-f]{8}-[0-9a-f]{4}-[0-9a-f]{4}-[0-9a-f]{4}-[0-9a-f]{12}` has no
end anchor, so this tests whether `s` starts with a UUID-shaped token. -/
def uuidStart (s : String) : Bool :=
  match takeHex 8 s.data >>= takeDash >>= takeHex 4 >>= takeDash >>= takeHex 4
      >>= takeDash >>= takeHex 4 >>= takeDash >>= takeHex 12 with
  | some _ => true
  | none => false

/-- `_is_readable_name`. -/
def isReadableName (name : String) : Bool :=
  if name.trim = "" then false
  else if uuidStart name.trim then false
  else true

/-- `_truncate_evidence(items, max_items)`. -/
def truncateEvidence (items : List String) (max_items : ℕ) : String :=
  let readable := items.filter isReadableName
  let total := items.length
  if readable.isEmpty then toString total ++ " items (names not available)"
  else
    let sample := readable.take max_items
    let remaining := total - sample.length
    if remaining > 0 then
      String.intercalate ", " sample ++ " (+ " ++ toString remaining ++ " more)"
    else
      String.intercalate ", " sample

/-- A scanner record, as the checks read it: `name` (`s["name"]`),
`status` (`s.get("status")`), `linked` (truthiness of `s.get("linked")`). -/
structure Scanner where
  name : String
  status : Option String
  linked : Bool
deriving DecidableEq

/-- An asset record, as the checks read it.  The four name-ish fields hold
`some v` when the record has a truthy value `v` there (the code only reads
them through `or`-chains).  `tags` and the two scan-history fields are read
for truthiness only. -/
structure Asset where
  name : Option String
  fqdn : Option String
  hostname : Option String
  ipv4 : Option String
  last_seen : Option (Option ℤ)
  tags : Bool
  source : Option String
  last_authenticated_scan_date : Bool
  has_plugin_results : Bool
deriving DecidableEq

/-- A scan record, as the checks read it: `name` is `""` when missing
(`scan.get("name")` falsy), `enabled` keeps its three-valued reading
(`scan.get("enabled") is False` only skips on a literal `False`). -/
structure Scan where
  name : String
  is_ghost : Bool
  credential_enabled : Bool
  last_run : Option (Option ℤ)
  enabled : Option Bool
deriving DecidableEq

/-- A credential record: its `type` field (`none` when the key is absent,
`c.get("type", "Unknown")` then yields `"Unknown"`). -/
structure Credential where
  type : Option String
deriving DecidableEq

/-- A network record. -/
structure Network where
  name : String
  is_default : Bool
  asset_count : ℕ
deriving DecidableEq

/-- The five input collections the checks read.  (`__init__` also stores
`policies` and `tags`, which no check reads; they are omitted.) -/
structure Inputs where
  scanners : List Scanner
  assets : List Asset
  scans : List Scan
  credentials : List Credential
  networks : List Network
deriving DecidableEq

/-- The fields of one `_add(...)` call: a finding minus its id. -/
structure Proto where
  title : String
  category : FindingCategory
  severity : Severity
  description : String
  evidence : Option String
  recommendation : String
  effort : String
deriving DecidableEq

/-- `self._counter` and `self.findings`. -/
structure AnalyzerState where
  counter : ℕ
  findings : List Finding
deriving DecidableEq

/-- `f"F-{n:03d}"`: zero-pad to width 3 (wider numbers print in full). -/
def fmtId (n : ℕ) : String :=
  "F-" ++ (if n < 10 then "00" ++ toString n
    else if n < 100 then "0" ++ toString n
    else toString n)

/-- The `Finding(...)` constructed by `_add` with counter value `n`. -/
def mkFinding (n : ℕ) (p : Proto) : Finding :=
  { id := fmtId n, title := p.title, category := p.category,
    severity := p.severity, description := p.description,
    evidence := p.evidence, recommendation := p.recommendation,
    effort := p.effort }

/-- `_add`: increment the counter, append the finding. -/
def addProto (st : AnalyzerState) (p : Proto) : AnalyzerState :=
  { counter := st.counter + 1,
    findings := st.findings ++ [mkFinding (st.counter + 1) p] }

/-- `days_since` in `_check_asset_staleness` (and the equivalent logic in
`_check_scan_frequency`): missing/empty value or a parse failure yields the
sentinel 999, otherwise `(now - dt).days`. -/
def daysSince (ls : Option (Option ℤ)) : ℤ :=
  match ls with
  | none => 999
  | some none => 999
  | some (some d) => d

/-- `asset_name`: `name or fqdn or hostname or ipv4 or "unknown"`. -/
def assetName (a : Asset) : String :=
  (((a.name <|> a.fqdn) <|> a.hostname) <|> a.ipv4).getD "unknown"

/-- `_check_scanner_health`. -/
def checkScannerHealthP (scanners : List Scanner) : List Proto :=
  let offline := scanners.filter (fun s => s.status != some "on")
  if offline.isEmpty then []
  else
    [{ title := toString offline.length ++ " Scanner(s) Offline",
       category := .scannerHealth,
       severity := .high,
       description := "Offline scanners create blind spots in coverage.",
       evidence := some (truncateEvidence (offline.map (fun s => s.name)) 5),
       recommendation := "Restore offline scanners and verify connectivity.",
       effort := "medium" }]

/-- `_check_scanner_linking`. -/
def checkScannerLinkingP (scanners : List Scanner) : List Proto :=
  let unlinked := scanners.filter (fun s => !s.linked)
  if unlinked.isEmpty then []
  else
    [{ title := toString unlinked.length ++ " Scanner(s) Not Linked to TVM",
       category := .scannerHealth,
       severity := .critical,
       description := "Unlinked scanners cannot run scans or report findings.",
       evidence := some (truncateEvidence (unlinked.map (fun s => s.name)) 5),
       recommendation := "Re-link scanners using a valid Linking Key from Tenable.io.",
       effort := "low" }]

/-- `ghosts = [s for s in scans if s.get("is_ghost")]`. -/
def ghostsOf (scans : List Scan) : List Scan := scans.filter (fun s => s.is_ghost)

/-- `active = [s for s in scans if not s.get("is_ghost")]`. -/
def activeOf (scans : List Scan) : List Scan := scans.filter (fun s => !s.is_ghost)

/-- `unauthenticated = [s for s in active if not s.get("credential_enabled")]`. -/
def activeUnauthOf (scans : List Scan) : List Scan :=
  (activeOf scans).filter (fun s => !s.credential_enabled)

/-- The ghost-scan finding of `_check_credential_coverage` (first `_add`). -/
def ghostProtos (scans : List Scan) : Except String (List Proto) :=
  let ghosts := ghostsOf scans
  let total := scans.length
  if ghosts.isEmpty then pure []
  else do
    let q ← pyDivQ (ghosts.length : ℚ) (total : ℚ)
    let ghost_pct := round1 (q * 100)
    pure [{
      title := toString ghosts.length ++ " Ghost Scan(s) — Never Executed ("
        ++ fmtPct ghost_pct ++ "%)",
      category := .credentialCoverage,
      severity := .critical,
      description := toString ghosts.length ++ " of " ++ toString total
        ++ " scans (" ++ fmtPct ghost_pct
        ++ "%) have status \x27empty\x27 — they were created but have NEVER run. "
        ++ "They consume scan slots, inflate the scan count, and provide zero security coverage.",
      evidence := some (truncateEvidence (ghosts.map (fun s => s.name)) 5),
      recommendation := "Audit and delete ghost scans. Keep only scans with an active schedule. "
        ++ "Implement a scan hygiene policy: delete any scan unused for 90+ days.",
      effort := "medium" }]

/-- The unauthenticated-active-scans finding of `_check_credential_coverage`
(second `_add`).  `pct` carries both its value and its f-string rendering:
the `else 0` arm of the source's conditional expression is an `int`, printed
`"0"` (that arm is unreachable: `unauthenticated ≠ []` forces
`active_total > 0`). -/
def unauthProtos (scans : List Scan) : Except String (List Proto) :=
  let active := activeOf scans
  let unauthenticated := activeUnauthOf scans
  if unauthenticated.isEmpty then pure []
  else do
    let active_total := active.length
    let pct ←
      if active_total = 0 then pure ((0 : ℚ), "0")
      else do
        let q ← pyDivQ (unauthenticated.length : ℚ) (active_total : ℚ)
        let p := round1 (q * 100)
        pure (p, fmtPct p)
    pure [{
      title := toString unauthenticated.length ++ " Active Scan(s) Without Credentials",
      category := .credentialCoverage,
      severity := if pct.1 > 50 then .critical else .high,
      description := toString unauthenticated.length ++ " of " ++ toString active_total
        ++ " active scans (" ++ pct.2
        ++ "%) run unauthenticated. Unauthenticated scans detect only ~30% of vulnerabilities. ("
        ++ toString (active.length - unauthenticated.length)
        ++ " active scans have credentials.)",
      evidence := some (truncateEvidence (unauthenticated.map (fun s => s.name)) 5),
      recommendation := "Configure credential sets for all internal network scans.",
      effort := "high" }]

/-- `_check_credential_coverage`: the ghost finding, then the
unauthenticated finding. -/
def checkCredentialCoverageP (scans : List Scan) : Except String (List Proto) := do
  let g ← ghostProtos scans
  let u ← unauthProtos scans
  return g ++ u

/-- `_ctype(c)`. -/
def ctype (c : Credential) : String := c.type.getD "Unknown"

/-- `list({_ctype(c) for c in credentials})`: the CPython set iteration
order is hash-dependent; it is modelled as first-occurrence order, a fixed
deterministic choice. -/
def dedupFirst (l : List String) : List String :=
  l.foldl (fun acc s => if s ∈ acc then acc else acc ++ [s]) []

/-- `_check_credentials_configured`. -/
def checkCredentialsConfiguredP (credentials : List Credential) : List Proto :=
  if credentials.isEmpty then
    [{ title := "No Shared Credentials Configured",
       category := .credentialCoverage,
       severity := .high,
       description := "No shared credentials are configured in the tenant. "
         ++ "Without shared credentials, each scan requires individual "
         ++ "credential configuration, increasing operational overhead.",
       evidence := some "0 credential sets found via credentials API.",
       recommendation := "Configure at least one Windows (domain) and one SSH credential set. "
         ++ "Enable Shared Credentials so all scans can inherit them automatically.",
       effort := "medium" }]
  else
    let types := dedupFirst (credentials.map ctype)
    let has_windows := credentials.any (fun c => strContains (ctype c).toLower "windows")
    let has_ssh := credentials.any (fun c => strContains (ctype c).toLower "ssh")
    let missing := (if has_windows then [] else ["Windows"])
      ++ (if has_ssh then [] else ["SSH/Linux"])
    if missing.isEmpty then []
    else
      [{ title := "Missing Credential Types: " ++ String.intercalate ", " missing,
         category := .credentialCoverage,
         severity := .medium,
         description := "Credential types " ++ pyListRepr missing
           ++ " are not configured. Only " ++ pyListRepr types
           ++ " credentials found (" ++ toString credentials.length
           ++ " total). Incomplete credential coverage reduces vulnerability detection.",
         evidence := some (toString credentials.length ++ " credential set(s): "
           ++ String.intercalate ", " types),
         recommendation := "Add " ++ String.intercalate " and " missing
           ++ " credential sets to cover all OS types.",
         effort := "medium" }]

/-- `_check_networks`. -/
def checkNetworksP (networks : List Network) : List Proto :=
  if networks.isEmpty then []
  else
    let default_only := networks.all (fun n => n.is_default)
    let empty_networks := networks.filter (fun n => n.asset_count == 0 && !n.is_default)
    if default_only && networks.length == 1 then
      [{ title := "Only Default Network Configured",
         category := .assetCoverage,
         severity := .medium,
         description := "Only the Default network is configured. Separate networks improve "
           ++ "asset segmentation, scanner assignment, and access control.",
         evidence := some "1 network found: Default (is_default=True).",
         recommendation := "Create dedicated networks per segment (e.g., HQ, DMZ, Cloud). "
           ++ "Assign specific scanners to each network for better coverage.",
         effort := "medium" }]
    else if !empty_networks.isEmpty then
      [{ title := toString empty_networks.length ++ " Network(s) With No Assets",
         category := .assetCoverage,
         severity := .low,
         description := toString empty_networks.length
           ++ " configured network(s) have no assets assigned. "
           ++ "Empty networks may indicate misconfiguration or abandoned segments.",
         evidence := some ("Empty networks: "
           ++ truncateEvidence (empty_networks.map (fun n => n.name)) 5),
         recommendation := "Review and clean up empty networks or assign assets.",
         effort := "low" }]
    else []

/-- Tier 1 of `_check_asset_staleness`: `days_since(last_seen) > 90`. -/
def zombiesOf (assets : List Asset) : List Asset :=
  assets.filter (fun a => decide (daysSince a.last_seen > 90))

/-- Tier 2 of `_check_asset_staleness`: `30 < days_since(last_seen) <= 90`. -/
def staleTierOf (assets : List Asset) : List Asset :=
  assets.filter (fun a =>
    decide (30 < daysSince a.last_seen) && decide (daysSince a.last_seen ≤ 90))

/-- Tier 3 of `_check_asset_staleness`: cloud-sourced, no authenticated-scan
timestamp, no plugin results. -/
def cloudUnscannedOf (assets : List Asset) : List Asset :=
  assets.filter (fun a =>
    (a.source == some "CloudDiscoveryConnector" || a.source == some "AWS"
      || a.source == some "AZURE" || a.source == some "GCP")
    && !a.last_authenticated_scan_date && !a.has_plugin_results)

/-- Tier 4 of `_check_asset_staleness`: plugin results but never
authenticated. -/
def noAuthScanOf (assets : List Asset) : List Asset :=
  assets.filter (fun a => !a.last_authenticated_scan_date && a.has_plugin_results)

/-- The zombie finding of `_check_asset_staleness`. -/
def zombieProtos (assets : List Asset) : Except String (List Proto) :=
  let zombies := zombiesOf assets
  if zombies.isEmpty then pure []
  else do
    let q ← pyDivQ (zombies.length : ℚ) (assets.length : ℚ)
    let pct := round1 (q * 100)
    pure [{
      title := toString zombies.length ++ " Zombie Asset(s) — No Activity >90 Days ("
        ++ fmtPct pct ++ "%)",
      category := .assetCoverage,
      severity := if pct > 30 then .critical else .high,
      description := toString zombies.length ++ " assets (" ++ fmtPct pct
        ++ "%) have not been seen in 90+ days. "
        ++ "These zombie assets consume licenses without generating security value. "
        ++ "They represent either decommissioned systems or coverage blind spots.",
      evidence := some (truncateEvidence (zombies.map assetName) 5),
      recommendation := "Enable Asset Aging policy in Tenable (Settings > General > Asset Management). "
        ++ "Set auto-delete for assets not seen in 90 days. "
        ++ "Review if decommissioned assets should be terminated.",
      effort := "medium" }]

/-- The stale-tier finding of `_check_asset_staleness`. -/
def staleProtos (assets : List Asset) : Except String (List Proto) :=
  let stale := staleTierOf assets
  if stale.isEmpty then pure []
  else do
    let q ← pyDivQ (stale.length : ℚ) (assets.length : ℚ)
    let pct := round1 (q * 100)
    pure [{
      title := toString stale.length ++ " Stale Asset(s) — No Activity 30-90 Days ("
        ++ fmtPct pct ++ "%)",
      category := .assetCoverage,
      severity := .medium,
      description := toString stale.length ++ " assets (" ++ fmtPct pct
        ++ "%) have not been seen in 30-90 days. "
        ++ "These may indicate intermittent connectivity or scanner coverage gaps.",
      evidence := some (truncateEvidence (stale.map assetName) 5),
      recommendation := "Verify scanner reachability for these assets. Check scan schedules.",
      effort := "low" }]

/-- The cloud-unscanned finding of `_check_asset_staleness`. -/
def cloudProtos (assets : List Asset) : List Proto :=
  let cloud_unscanned := cloudUnscannedOf assets
  if cloud_unscanned.isEmpty then []
  else
    [{ title := toString cloud_unscanned.length ++ " Cloud Asset(s) Never Scanned",
       category := .assetCoverage,
       severity := .high,
       description := toString cloud_unscanned.length
         ++ " cloud assets were discovered via connector "
         ++ "but have never been scanned. Cloud assets without scan results "
         ++ "provide zero vulnerability intelligence.",
       evidence := some (truncateEvidence (cloud_unscanned.map assetName) 5),
       recommendation := "Deploy cloud-native scanners or Tenable Agents to cover cloud assets. "
         ++ "Enable cloud connector scanning in Tenable Cloud Security.",
       effort := "medium" }]

/-- The never-authenticated finding of `_check_asset_staleness`
(`if no_auth_scan and len(no_auth_scan) > 3`). -/
def noAuthProtos (assets : List Asset) : Except String (List Proto) :=
  let no_auth_scan := noAuthScanOf assets
  if !no_auth_scan.isEmpty && no_auth_scan.length > 3 then do
    let q ← pyDivQ (no_auth_scan.length : ℚ) (assets.length : ℚ)
    let pct := round1 (q * 100)
    pure [{
      title := toString no_auth_scan.length ++ " Asset(s) Never Authenticated ("
        ++ fmtPct pct ++ "%)",
      category := .assetCoverage,
      severity := .medium,
      description := toString no_auth_scan.length ++ " assets (" ++ fmtPct pct
        ++ "%) have plugin results but "
        ++ "have never had a successful authenticated scan. "
        ++ "Authenticated scans detect 2-3x more vulnerabilities.",
      evidence := some (truncateEvidence (no_auth_scan.map assetName) 5),
      recommendation := "Configure and enable credential scanning for these assets.",
      effort := "high" }]
  else pure []

/-- `_check_asset_staleness`: the four tier findings in source order. -/
def checkAssetStalenessP (assets : List Asset) : Except String (List Proto) := do
  let z ← zombieProtos assets
  let s ← staleProtos assets
  let c := cloudProtos assets
  let n ← noAuthProtos assets
  return z ++ s ++ c ++ n

/-- `_check_asset_tagging`. -/
def checkAssetTaggingP (assets : List Asset) : Except String (List Proto) :=
  let untagged := assets.filter (fun a => !a.tags)
  if untagged.isEmpty then pure []
  else do
    let q ← pyDivQ (untagged.length : ℚ) (assets.length : ℚ)
    let pct := round1 (q * 100)
    pure [{
      title := toString untagged.length ++ " Assets Without Tags ("
        ++ fmtPct pct ++ "%)",
      category := .tagManagement,
      severity := if pct < 50 then .medium else .high,
      description := "Untagged assets cannot be targeted by dynamic access groups.",
      evidence := some (fmtPct pct ++ "% of assets have no classification tags."),
      recommendation := "Define tagging taxonomy and apply Tag Propagation rules.",
      effort := "high" }]

/-- The `stale` list accumulated by the loop of `_check_scan_frequency`:
skip scans with a falsy name or `enabled is False`; a missing/empty
`last_run` or a parse failure (caught `ValueError`/`TypeError`) appends the
scan's name, a parsed timestamp appends it only when older than 30 days. -/
def staleScanNames : List Scan → List String
  | [] => []
  | scan :: rest =>
    if scan.name = "" then staleScanNames rest
    else if scan.enabled = some false then staleScanNames rest
    else
      match scan.last_run with
      | none => scan.name :: staleScanNames rest
      | some none => scan.name :: staleScanNames rest
      | some (some d) => if d > 30 then scan.name :: staleScanNames rest
        else staleScanNames rest

/-- `_check_scan_frequency`. -/
def checkScanFrequencyP (scans : List Scan) : List Proto :=
  let stale := staleScanNames scans
  if stale.isEmpty then []
  else
    [{ title := toString stale.length ++ " Scan(s) Not Run in 30+ Days",
       category := .scanPolicy,
       severity := if stale.length > 100 then .critical else .high,
       description := toString stale.length ++ " scans have not executed in the last 30 days. "
         ++ "This may indicate scheduling issues or abandoned scan configurations.",
       evidence := some ("Sample: " ++ truncateEvidence stale 5),
       recommendation := "Review and clean up abandoned scans. "
         ++ "Enable weekly schedules for all active scan policies.",
       effort := "medium" }]

/-- The `_add` calls made by one full pass of `run_all_checks`, in check
order.  Each check computes its finding fields from the inputs alone (no
check reads the counter or the findings list), so the pass factors into
collecting the protos and then threading them through `_add`. -/
def allProtos (inp : Inputs) : Except String (List Proto) := do
  let p1 := checkScannerHealthP inp.scanners
  let p2 := checkScannerLinkingP inp.scanners
  let p3 ← checkCredentialCoverageP inp.scans
  let p4 := checkCredentialsConfiguredP inp.credentials
  let p5 := checkNetworksP inp.networks
  let p6 ← checkAssetStalenessP inp.assets
  let p7 ← checkAssetTaggingP inp.assets
  let p8 := checkScanFrequencyP inp.scans
  return p1 ++ p2 ++ p3 ++ p4 ++ p5 ++ p6 ++ p7 ++ p8

/-- The state of a freshly constructed analyzer (`__init__`). -/
def initState : AnalyzerState := { counter := 0, findings := [] }

/-- `run_all_checks`, started from analyzer state `st`: runs the checks,
appends their findings through `_add`, and returns (with the new state) the
accumulated `self.findings` list. -/
def runAllChecks (inp : Inputs) (st : AnalyzerState) :
    Except String (AnalyzerState × List Finding) := do
  let ps ← allProtos inp
  let st2 := ps.foldl addProto st
  return (st2, st2.findings)

/-- The findings created by threading `ps` through `_add` starting at
counter value `c`. -/
def assignIds (c : ℕ) : List Proto → List Finding
  | [] => []
  | p :: ps => mkFinding (c + 1) p :: assignIds (c + 1) ps


/-- Strip the id: the part of a finding `_add` does not create from the
counter. -/
def eraseId (f : Finding) : Finding := { f with id := "" }

/-- All-empty input collections. -/
def emptyInputs : Inputs :=
  { scanners := [], assets := [], scans := [], credentials := [], networks := [] }


/-- Sample asset with a missing `last_seen` (`days_since` yields the 999
sentinel, landing in the zombie tier). -/
def zombieAsset : Asset :=
  { name := some "z-host", fqdn := none, hostname := none, ipv4 := none,
    last_seen := none, tags := true, source := none,
    last_authenticated_scan_date := false, has_plugin_results := false }

/-- Sample asset seen today. -/
def freshAsset : Asset :=
  { name := some "f-host", fqdn := none, hostname := none, ipv4 := none,
    last_seen := some (some 0), tags := true, source := none,
    last_authenticated_scan_date := false, has_plugin_results := false }

/-- 100 assets with 35 zombies: the claim's scenario input. -/
def assets100 : List Asset :=
  List.replicate 35 zombieAsset ++ List.replicate 65 freshAsset

/-- 203 assets with 61 zombies: 61/203 = 30.049…% exceeds 30% but rounds to
30.0, so the rounded comparison of the code yields HIGH. -/
def assets203 : List Asset :=
  List.replicate 61 zombieAsset ++ List.replicate 142 freshAsset

/-- Sample non-ghost scans with and without credential enablement. -/
def unauthScan : Scan :=
  { name := "scan-u", is_ghost := false, credential_enabled := false,
    last_run := some (some 0), enabled := none }

def authScan : Scan :=
  { name := "scan-a", is_ghost := false, credential_enabled := true,
    last_run := some (some 0), enabled := none }

/-- 10 scans, 6 without credentials, 0 ghosts: the claim's scenario input. -/
def scans10 : List Scan :=
  List.replicate 6 unauthScan ++ List.replicate 4 authScan

/-- 1001 active scans with 501 unauthenticated: 501/1001 = 50.049…% exceeds
50% but rounds to 50.0, so the rounded comparison of the code yields HIGH. -/
def scans1001 : List Scan :=
  List.replicate 501 unauthScan ++ List.replicate 500 authScan

end GapAnalyzer

/-! ### Arithmetic lemmas about `pyRound` -/

theorem pyRound_le_add_one (q : ℚ) : pyRound q ≤ ⌊q⌋ + 1 := by
  unfold pyRound
  split_ifs <;> omega

theorem floor_le_pyRound (q : ℚ) : ⌊q⌋ ≤ pyRound q := by
  unfold pyRound
  split_ifs <;> omega

theorem pyRound_mono {a b : ℚ} (h : a ≤ b) : pyRound a ≤ pyRound b := by
  have hf : ⌊a⌋ ≤ ⌊b⌋ := Int.floor_le_floor h
  rcases lt_or_eq_of_le hf with hlt | heq
  · calc pyRound a ≤ ⌊a⌋ + 1 := pyRound_le_add_one a
      _ ≤ ⌊b⌋ := by omega
      _ ≤ pyRound b := floor_le_pyRound b
  · unfold pyRound
    rw [← heq]
    split_ifs <;> first | omega | linarith

theorem pyRound_intCast (n : ℤ) : pyRound (n : ℚ) = n := by
  unfold pyRound
  rw [Int.floor_intCast]
  norm_num

theorem round2_mono {a b : ℚ} (h : a ≤ b) : round2 a ≤ round2 b := by
  unfold round2
  have h2 : pyRound (a * 100) ≤ pyRound (b * 100) := pyRound_mono (by linarith)
  have hc : ((pyRound (a * 100) : ℚ)) ≤ ((pyRound (b * 100) : ℚ)) := by exact_mod_cast h2
  linarith

theorem round2_one : round2 (1 : ℚ) = 1 := by
  unfold round2
  rw [show ((1 : ℚ) * 100) = ((100 : ℤ) : ℚ) by norm_num, pyRound_intCast]
  norm_num

theorem round2_five : round2 (5 : ℚ) = 5 := by
  unfold round2
  rw [show ((5 : ℚ) * 100) = ((500 : ℤ) : ℚ) by norm_num, pyRound_intCast]
  norm_num

theorem round2_one_le {q : ℚ} (h : 1 ≤ q) : 1 ≤ round2 q := by
  have h1 : round2 (1 : ℚ) ≤ round2 q := round2_mono h
  rw [round2_one] at h1
  exact h1

theorem round2_le_five {q : ℚ} (h : q ≤ 5) : round2 q ≤ 5 := by
  have h1 : round2 q ≤ round2 (5 : ℚ) := round2_mono h
  rw [round2_five] at h1
  exact h1

theorem foldl_weights (fs : List Finding) (init : ℚ) :
    fs.foldl (fun s f => s + MaturityEngine.weightsGet f.severity) init
      = init + (fs.map (fun f => MaturityEngine.weightsGet f.severity)).sum := by
  induction fs generalizing init with
  | nil => simp
  | cons f t ih => simp [ih]; ring

theorem weightsGet_eq_claimPenalty (s : Severity) :
    MaturityEngine.weightsGet s = claimPenalty s := by
  cases s <;> rfl

theorem weightsGet_nonpos (s : Severity) : MaturityEngine.weightsGet s ≤ 0 := by
  cases s <;> norm_num [MaturityEngine.weightsGet]

theorem clamp_comm (q : ℚ) : max 1 (min 5 q) = clampScore q := by
  unfold clampScore
  simp only [max_def, min_def]
  split_ifs <;> linarith

theorem one_le_clamp (q : ℚ) : 1 ≤ max 1 (min 5 q) := le_max_left _ _

theorem clamp_le_five (q : ℚ) : max 1 (min 5 q) ≤ 5 :=
  max_le (by norm_num) (min_le_left _ _)

theorem calculate_eq_claim (fs : List Finding) (m : Option ℚ) :
    MaturityEngine.calculate fs m = (claimScore fs m, claimLevel (claimScore fs m)) := by
  unfold MaturityEngine.calculate
  have hA : (if m.getD 0 ≥ 90 then
        fs.foldl (fun s f => s + MaturityEngine.weightsGet f.severity)
          MaturityEngine.BASE + 1/2
      else if m.getD 0 ≥ 70 then
        fs.foldl (fun s f => s + MaturityEngine.weightsGet f.severity)
          MaturityEngine.BASE + 1/4
      else
        fs.foldl (fun s f => s + MaturityEngine.weightsGet f.severity)
          MaturityEngine.BASE)
      = 7/2 + (fs.map (fun f => claimPenalty f.severity)).sum + claimBonus m := by
    rw [foldl_weights]
    simp only [weightsGet_eq_claimPenalty, MaturityEngine.BASE, claimBonus]
    split_ifs <;> ring
  simp only
  rw [hA, clamp_comm]
  rfl

/-- C1: `MaturityEngine.calculate` returns the claimed score formula
(baseline 3.5, fixed per-severity penalties, authenticated-scan bonus,
clamped to [1.0, 5.0], rounded to 2 decimals) together with the level given
by inclusive lower bounds (≥4.5 Optimized, ≥3.5 Managed, ≥2.5 Defined,
≥1.5 Developing, else Initial); in particular findings with severities
[Critical, Critical, High] and `authenticated_scans_pct = 95` score 1.5 with
level Developing. -/
theorem c1_maturity_calculate :
    (∀ (fs : List Finding) (m : Option ℚ),
      MaturityEngine.calculate fs m = (claimScore fs m, claimLevel (claimScore fs m)))
    ∧ MaturityEngine.calculate
        [sampleFinding .critical, sampleFinding .critical, sampleFinding .high]
        (some 95)
      = (3/2, .developing) := by
  constructor
  · exact calculate_eq_claim
  · rw [calculate_eq_claim]
    have hs : claimScore
        [sampleFinding .critical, sampleFinding .critical, sampleFinding .high]
        (some 95) = 3/2 := by
      unfold claimScore claimBonus clampScore
      norm_num [sampleFinding, claimPenalty, round2, max_def, min_def]
      rw [show (150 : ℚ) = ((150 : ℤ) : ℚ) by norm_num, pyRound_intCast]
      norm_num
    rw [hs]
    norm_num [claimLevel]

/-- C6: the maturity score always lies in [1.0, 5.0] and appending one more
finding of any severity (metrics unchanged) never strictly increases it. -/
theorem c6_maturity_monotone (fs : List Finding) (f : Finding) (m : Option ℚ) :
    1 ≤ (MaturityEngine.calculate fs m).1
    ∧ (MaturityEngine.calculate fs m).1 ≤ 5
    ∧ (MaturityEngine.calculate (fs ++ [f]) m).1 ≤ (MaturityEngine.calculate fs m).1 := by
  unfold MaturityEngine.calculate
  simp only
  refine ⟨round2_one_le (one_le_clamp _), round2_le_five (clamp_le_five _), ?_⟩
  have hsum : (fs ++ [f]).foldl (fun s g => s + MaturityEngine.weightsGet g.severity)
      MaturityEngine.BASE
      ≤ fs.foldl (fun s g => s + MaturityEngine.weightsGet g.severity)
          MaturityEngine.BASE := by
    rw [foldl_weights, foldl_weights]
    simp only [List.map_append, List.sum_append, List.map_cons, List.map_nil,
      List.sum_cons, List.sum_nil]
    have := weightsGet_nonpos f.severity
    linarith
  refine round2_mono (max_le_max le_rfl (min_le_min le_rfl ?_))
  split_ifs <;> linarith

/-! ### Lemmas for the recommendation engine -/

namespace RecommendationEngine

theorem PRIORITY_le_five (s : Severity) : PRIORITY s ≤ 5 := by
  cases s <;> simp [PRIORITY]

theorem foldr_min_le {l : List ℕ} {x : ℕ} (hx : x ∈ l) : l.foldr min 5 ≤ x := by
  induction l with
  | nil => cases hx
  | cons a t ih =>
    rcases List.mem_cons.1 hx with rfl | hx
    · exact min_le_left _ _
    · exact le_trans (min_le_right _ _) (ih hx)

theorem le_foldr_min {l : List ℕ} {a : ℕ} (h5 : a ≤ 5) (h : ∀ x ∈ l, a ≤ x) :
    a ≤ l.foldr min 5 := by
  induction l with
  | nil => exact h5
  | cons b t ih =>
    exact le_min (h b (List.mem_cons_self b t)) (ih (fun x hx => h x (List.mem_cons_of_mem b hx)))

theorem mkRec_priority (c : FindingCategory) (items : List Finding) (h : items ≠ []) :
    (mkRec c items).priority = groupRank items := by
  have hperm := List.perm_insertionSort findingLe items
  obtain ⟨top, rest, hsort⟩ : ∃ top rest, List.insertionSort findingLe items = top :: rest := by
    cases hs : List.insertionSort findingLe items with
    | nil =>
      exfalso
      exact h (List.eq_nil_of_length_eq_zero (by
        have := hperm.length_eq
        rw [hs] at this
        simpa using this.symm))
    | cons a l => exact ⟨a, l, rfl⟩
  have hmem : top ∈ items := hperm.mem_iff.1 (by rw [hsort]; exact List.mem_cons_self _ _)
  have hsorted := List.sorted_insertionSort findingLe items
  rw [hsort] at hsorted
  have hle : ∀ f ∈ items, PRIORITY top.severity ≤ PRIORITY f.severity := by
    intro f hf
    have hf2 : f ∈ top :: rest := by rw [← hsort]; exact hperm.mem_iff.2 hf
    rcases List.mem_cons.1 hf2 with rfl | hf3
    · exact le_refl _
    · exact (List.sorted_cons.1 hsorted).1 f hf3
  have h1 : (mkRec c items).priority = PRIORITY top.severity := by
    unfold mkRec
    simp only [hsort]
  rw [h1]
  refine le_antisymm ?_ ?_
  · refine le_foldr_min (PRIORITY_le_five _) ?_
    intro x hx
    obtain ⟨f, hf, rfl⟩ := List.mem_map.1 hx
    exact hle f hf
  · exact foldr_min_le (List.mem_map.2 ⟨top, hmem, rfl⟩)

theorem upsertGroup_snd_ne_nil (gs : List (FindingCategory × List Finding)) (f : Finding)
    (h : ∀ g ∈ gs, g.2 ≠ []) : ∀ g ∈ upsertGroup gs f, g.2 ≠ [] := by
  induction gs with
  | nil =>
    intro g hg
    simp only [upsertGroup, List.mem_singleton] at hg
    subst hg
    simp
  | cons p rest ih =>
    obtain ⟨c, items⟩ := p
    intro g hg
    simp only [upsertGroup] at hg
    split_ifs at hg with hc
    · rcases List.mem_cons.1 hg with rfl | hg2
      · simp
      · exact h g (List.mem_cons_of_mem _ hg2)
    · rcases List.mem_cons.1 hg with rfl | hg2
      · exact h _ (List.mem_cons_self _ _)
      · exact ih (fun g' hg' => h g' (List.mem_cons_of_mem _ hg')) g hg2

theorem groupByCategory_snd_ne_nil (fs : List Finding) :
    ∀ g ∈ groupByCategory fs, g.2 ≠ [] := by
  have H : ∀ (fs : List Finding) (gs : List (FindingCategory × List Finding)),
      (∀ g ∈ gs, g.2 ≠ []) → ∀ g ∈ fs.foldl upsertGroup gs, g.2 ≠ [] := by
    intro fs
    induction fs with
    | nil => intro gs h; simpa using h
    | cons f t ih =>
      intro gs h
      exact ih (upsertGroup gs f) (upsertGroup_snd_ne_nil gs f h)
  exact H fs [] (by intro g hg; cases hg)

theorem upsertGroup_map_fst (gs : List (FindingCategory × List Finding)) (f : Finding) :
    (upsertGroup gs f).map Prod.fst
      = if f.category ∈ gs.map Prod.fst then gs.map Prod.fst
        else gs.map Prod.fst ++ [f.category] := by
  induction gs with
  | nil => simp [upsertGroup]
  | cons p rest ih =>
    obtain ⟨c, items⟩ := p
    by_cases hc : c = f.category
    · subst hc
      simp [upsertGroup]
    · simp only [upsertGroup, if_neg hc, List.map_cons]
      rw [ih]
      have hmc : (f.category ∈ c :: rest.map Prod.fst) ↔ (f.category ∈ rest.map Prod.fst) := by
        rw [List.mem_cons]
        constructor
        · rintro (h1 | h1)
          · exact absurd h1.symm hc
          · exact h1
        · exact Or.inr
      by_cases hm : f.category ∈ rest.map Prod.fst
      · rw [if_pos hm, if_pos (List.mem_cons_of_mem c hm)]
      · rw [if_neg hm, if_neg (fun hcon => hm (hmc.1 hcon))]
        simp

theorem groupByCategory_map_fst (fs : List Finding) :
    (groupByCategory fs).map Prod.fst = distinctCats fs := by
  unfold groupByCategory distinctCats
  have H : ∀ (fs : List Finding) (gs : List (FindingCategory × List Finding)),
      (fs.foldl upsertGroup gs).map Prod.fst
        = fs.foldl (fun acc f => if f.category ∈ acc then acc else acc ++ [f.category])
            (gs.map Prod.fst) := by
    intro fs
    induction fs with
    | nil => intro gs; simp
    | cons f t ih =>
      intro gs
      simp only [List.foldl_cons]
      rw [ih, upsertGroup_map_fst]
  simpa using H fs []

theorem reassign_map_priority (l : List Recommendation) (i : ℕ) :
    (reassign i l).map (fun r => r.priority) = List.range' i l.length := by
  induction l generalizing i with
  | nil => simp [reassign]
  | cons r t ih => simp [reassign, List.range'_succ, ih]

theorem reassign_length (l : List Recommendation) (i : ℕ) :
    (reassign i l).length = l.length := by
  induction l generalizing i with
  | nil => rfl
  | cons r t ih => simp [reassign, ih]

end RecommendationEngine

/-! ### Stable sorting is sorting by (key, original position) -/

theorem numberFrom_le_fst {α : Type} (n : ℕ) (l : List α) :
    ∀ p ∈ numberFrom n l, n ≤ p.1 := by
  induction l generalizing n with
  | nil => intro p hp; cases hp
  | cons a t ih =>
    intro p hp
    rcases List.mem_cons.1 hp with rfl | hp2
    · exact le_refl n
    · exact le_trans (Nat.le_succ n) (ih (n + 1) p hp2)

theorem numberFrom_map_snd {α : Type} (n : ℕ) (l : List α) :
    (numberFrom n l).map Prod.snd = l := by
  induction l generalizing n with
  | nil => rfl
  | cons a t ih => simp [numberFrom, ih]

theorem orderedInsert_lexByKey {α : Type} (key : α → ℕ) (p : ℕ × α)
    (m : List (ℕ × α)) (hlt : ∀ q ∈ m, p.1 < q.1) :
    (m.orderedInsert (lexByKey key) p).map Prod.snd
      = (m.map Prod.snd).orderedInsert (fun a b => key a ≤ key b) p.2 := by
  induction m with
  | nil => rfl
  | cons q t ih =>
    have hpq : lexByKey key p q ↔ key p.2 ≤ key q.2 := by
      unfold lexByKey
      have hq1 := hlt q (List.mem_cons_self q t)
      constructor
      · rintro (h1 | ⟨h1, _⟩)
        · exact le_of_lt h1
        · exact le_of_eq h1
      · intro h1
        rcases lt_or_eq_of_le h1 with h2 | h2
        · exact Or.inl h2
        · exact Or.inr ⟨h2, le_of_lt hq1⟩
    simp only [List.orderedInsert, List.map_cons]
    by_cases hk : key p.2 ≤ key q.2
    · rw [if_pos (hpq.2 hk), if_pos hk]
      simp
    · rw [if_neg (fun hcon => hk (hpq.1 hcon)), if_neg hk, List.map_cons,
        ih (fun q' hq' => hlt q' (List.mem_cons_of_mem q hq'))]

theorem insertionSort_numberFrom {α : Type} (key : α → ℕ) (l : List α) (n : ℕ) :
    (List.insertionSort (lexByKey key) (numberFrom n l)).map Prod.snd
      = List.insertionSort (fun a b => key a ≤ key b) l := by
  induction l generalizing n with
  | nil => rfl
  | cons a t ih =>
    simp only [numberFrom, List.insertionSort]
    have hlt : ∀ q ∈ List.insertionSort (lexByKey key) (numberFrom (n + 1) t), n < q.1 := by
      intro q hq
      have hq2 : q ∈ numberFrom (n + 1) t :=
        (List.perm_insertionSort (lexByKey key) (numberFrom (n + 1) t)).subset hq
      exact lt_of_lt_of_le (Nat.lt_succ_self n) (numberFrom_le_fst (n + 1) t q hq2)
    rw [orderedInsert_lexByKey key (n, a) _ hlt, ih (n + 1)]

theorem orderedInsert_congr {α : Type} (r s : α → α → Prop)
    [DecidableRel r] [DecidableRel s] (a : α) (l : List α)
    (h : ∀ b ∈ l, r a b ↔ s a b) :
    l.orderedInsert r a = l.orderedInsert s a := by
  induction l with
  | nil => rfl
  | cons b t ih =>
    simp only [List.orderedInsert]
    by_cases hr : r a b
    · rw [if_pos hr, if_pos ((h b (List.mem_cons_self b t)).1 hr)]
    · rw [if_neg hr, if_neg (fun hcon => hr ((h b (List.mem_cons_self b t)).2 hcon)),
        ih (fun b' hb' => h b' (List.mem_cons_of_mem b hb'))]

theorem insertionSort_congr {α : Type} (r s : α → α → Prop)
    [DecidableRel r] [DecidableRel s] (l : List α)
    (h : ∀ a ∈ l, ∀ b ∈ l, r a b ↔ s a b) :
    List.insertionSort r l = List.insertionSort s l := by
  induction l with
  | nil => rfl
  | cons a t ih =>
    simp only [List.insertionSort]
    rw [ih (fun x hx y hy =>
      h x (List.mem_cons_of_mem a hx) y (List.mem_cons_of_mem a hy))]
    refine orderedInsert_congr r s a _ (fun b hb => ?_)
    have hb2 : b ∈ t := (List.perm_insertionSort s t).subset hb
    exact h a (List.mem_cons_self a t) b (List.mem_cons_of_mem a hb2)

theorem orderedInsert_map {α β : Type} (f : α → β) (r : β → β → Prop)
    [DecidableRel r] (a : α) (l : List α) :
    (l.map f).orderedInsert r (f a)
      = (l.orderedInsert (fun x y => r (f x) (f y)) a).map f := by
  induction l with
  | nil => rfl
  | cons b t ih =>
    simp only [List.map_cons, List.orderedInsert]
    by_cases hr : r (f a) (f b)
    · rw [if_pos hr, if_pos hr]
      simp
    · rw [if_neg hr, if_neg hr, List.map_cons, ih]

theorem insertionSort_map {α β : Type} (f : α → β) (r : β → β → Prop)
    [DecidableRel r] (l : List α) :
    List.insertionSort r (l.map f)
      = (List.insertionSort (fun a b => r (f a) (f b)) l).map f := by
  induction l with
  | nil => rfl
  | cons a t ih =>
    simp only [List.map_cons, List.insertionSort]
    rw [ih, orderedInsert_map]

open RecommendationEngine in
theorem generate_eq_generateSpec (fs : List Finding) :
    generate fs = generateSpec fs := by
  unfold generate generateSpec
  simp only
  rw [insertionSort_map (fun g => mkRec g.1 g.2) recLe (groupByCategory fs)]
  have hne := groupByCategory_snd_ne_nil fs
  have hkey : ∀ g ∈ groupByCategory fs, (mkRec g.1 g.2).priority = groupRank g.2 :=
    fun g hg => mkRec_priority g.1 g.2 (hne g hg)
  have h2 : List.insertionSort claimGroupLe (numberFrom 0 (groupByCategory fs))
      = List.insertionSort
          (lexByKey (fun g : FindingCategory × List Finding => (mkRec g.1 g.2).priority))
          (numberFrom 0 (groupByCategory fs)) := by
    apply insertionSort_congr
    intro p hp q hq
    have hp2 : p.2 ∈ groupByCategory fs := by
      have hm := List.mem_map_of_mem Prod.snd hp
      rwa [numberFrom_map_snd] at hm
    have hq2 : q.2 ∈ groupByCategory fs := by
      have hm := List.mem_map_of_mem Prod.snd hq
      rwa [numberFrom_map_snd] at hm
    unfold claimGroupLe lexByKey
    simp only [hkey p.2 hp2, hkey q.2 hq2]
  have h3 := insertionSort_numberFrom
    (fun g : FindingCategory × List Finding => (mkRec g.1 g.2).priority)
    (groupByCategory fs) 0
  rw [show (fun g : ℕ × (FindingCategory × List Finding) => mkRec g.2.1 g.2.2)
      = ((fun g : FindingCategory × List Finding => mkRec g.1 g.2) ∘ Prod.snd) from rfl]
  rw [← List.map_map, h2, h3]
  congr 2

open RecommendationEngine in
/-- C2: `RecommendationEngine.generate` returns exactly one recommendation
per distinct finding category that has at least one finding; the priority
fields after the final sort and re-assignment form the contiguous sequence
1..N in list order; and the final order sorts the category groups ascending
by the severity rank of each group's most severe finding (Critical=1, High=2,
Medium=3, Low=4, unknown=5) with ties broken by the order in which the
categories first appear in the input findings (the ordering captured by
`generateSpec`). -/
theorem c2_recommendation_generate (fs : List Finding) :
    generate fs = generateSpec fs
    ∧ (generate fs).map (fun r => r.priority) = List.range' 1 (distinctCats fs).length
    ∧ (generate fs).length = (distinctCats fs).length
    ∧ (groupByCategory fs).map Prod.fst = distinctCats fs := by
  have hlen : (generate fs).length = (distinctCats fs).length := by
    unfold generate
    simp only
    rw [reassign_length, (List.perm_insertionSort recLe _).length_eq, List.length_map,
      ← groupByCategory_map_fst, List.length_map]
  refine ⟨generate_eq_generateSpec fs, ?_, hlen, groupByCategory_map_fst fs⟩
  unfold generate
  simp only
  rw [reassign_map_priority, (List.perm_insertionSort recLe _).length_eq, List.length_map,
    ← groupByCategory_map_fst, List.length_map]

/-! ### Lemmas about the analyzer state thread -/

namespace GapAnalyzer

theorem foldl_addProto (ps : List Proto) (c : ℕ) (fs : List Finding) :
    ps.foldl addProto { counter := c, findings := fs }
      = { counter := c + ps.length, findings := fs ++ assignIds c ps } := by
  induction ps generalizing c fs with
  | nil => simp [assignIds]
  | cons p t ih =>
    simp only [List.foldl_cons, assignIds]
    rw [show addProto { counter := c, findings := fs } p
        = { counter := c + 1, findings := fs ++ [mkFinding (c + 1) p] } from rfl, ih]
    have h1 : c + 1 + t.length = c + (t.length + 1) := by omega
    rw [h1]
    congr 1
    simp

theorem assignIds_length (c : ℕ) (ps : List Proto) :
    (assignIds c ps).length = ps.length := by
  induction ps generalizing c with
  | nil => rfl
  | cons p t ih => simp [assignIds, ih]

theorem assignIds_map_id (c : ℕ) (ps : List Proto) :
    (assignIds c ps).map (fun f => f.id)
      = (List.range ps.length).map (fun i => fmtId (c + i + 1)) := by
  induction ps generalizing c with
  | nil => rfl
  | cons p t ih =>
    simp only [assignIds, List.map_cons, List.length_cons, List.range_succ_eq_map,
      List.map_map]
    have h2 : ((fun i => fmtId (c + i + 1)) ∘ Nat.succ)
        = fun i => fmtId (c + 1 + i + 1) := by
      funext i
      simp only [Function.comp_apply]
      congr 1
      omega
    rw [h2, ← ih (c + 1)]
    congr 1

theorem assignIds_map_eraseId (c : ℕ) (ps : List Proto) :
    (assignIds c ps).map eraseId = (assignIds 0 ps).map eraseId := by
  have H : ∀ (d : ℕ), (assignIds d ps).map eraseId
      = ps.map (fun p => eraseId (mkFinding 1 p)) := by
    intro d
    induction ps generalizing d with
    | nil => rfl
    | cons p t ih => simp only [assignIds, List.map_cons, ih]; rfl
  rw [H c, H 0]

theorem filter_nonempty_src {α : Type} {l : List α} {p : α → Bool}
    (h : ¬(l.filter p).isEmpty = true) : ((l.length : ℚ)) ≠ 0 := by
  have h1 : l ≠ [] := by
    intro hnil
    subst hnil
    simp at h
  exact Nat.cast_ne_zero.mpr (fun h0 => h1 (List.length_eq_zero.1 h0))

theorem cloudProtos_len (assets : List Asset) : (cloudProtos assets).length ≤ 1 := by
  unfold cloudProtos
  simp only []
  split <;> simp

theorem checkScannerHealthP_len (scanners : List Scanner) :
    (checkScannerHealthP scanners).length ≤ 1 := by
  unfold checkScannerHealthP
  simp only []
  split <;> simp

theorem checkScannerLinkingP_len (scanners : List Scanner) :
    (checkScannerLinkingP scanners).length ≤ 1 := by
  unfold checkScannerLinkingP
  simp only []
  split <;> simp

theorem ite_singleton_len {α : Type} (c : Prop) [inst : Decidable c] (x : α) :
    (if c then ([] : List α) else [x]).length ≤ 1 := by
  split <;> simp

theorem checkCredentialsConfiguredP_len (credentials : List Credential) :
    (checkCredentialsConfiguredP credentials).length ≤ 1 := by
  unfold checkCredentialsConfiguredP
  simp only []
  split
  · simp
  · exact ite_singleton_len _ _

theorem checkNetworksP_len (networks : List Network) :
    (checkNetworksP networks).length ≤ 1 := by
  unfold checkNetworksP
  simp only []
  split
  · simp
  · split
    · simp
    · split <;> simp

theorem checkScanFrequencyP_len (scans : List Scan) :
    (checkScanFrequencyP scans).length ≤ 1 := by
  unfold checkScanFrequencyP
  simp only []
  split <;> simp

theorem ghostProtos_ok (scans : List Scan) :
    ∃ ps, ghostProtos scans = .ok ps ∧ ps.length ≤ 1 := by
  unfold ghostProtos
  simp only []
  split
  · exact ⟨[], rfl, by simp⟩
  · next h =>
    simp only [pyDivQ,
      if_neg (filter_nonempty_src (p := fun (s : Scan) => s.is_ghost)
        (by simpa [ghostsOf] using h))]
    exact ⟨_, rfl, by simp⟩

theorem unauthProtos_ok (scans : List Scan) :
    ∃ ps, unauthProtos scans = .ok ps ∧ ps.length ≤ 1 := by
  unfold unauthProtos
  simp only []
  split
  · exact ⟨[], rfl, by simp⟩
  · split
    · exact ⟨_, rfl, by simp⟩
    · next h =>
      have h2 : (((activeOf scans).length : ℚ)) ≠ 0 := Nat.cast_ne_zero.mpr h
      simp only [pyDivQ, if_neg h2]
      exact ⟨_, rfl, by simp⟩

theorem checkCredentialCoverageP_ok (scans : List Scan) :
    ∃ ps, checkCredentialCoverageP scans = .ok ps ∧ ps.length ≤ 2 := by
  obtain ⟨g, hg, hgl⟩ := ghostProtos_ok scans
  obtain ⟨u, hu, hul⟩ := unauthProtos_ok scans
  refine ⟨g ++ u, ?_, by simp only [List.length_append]; omega⟩
  unfold checkCredentialCoverageP
  rw [hg, hu]
  rfl

theorem zombieProtos_ok (assets : List Asset) :
    ∃ ps, zombieProtos assets = .ok ps ∧ ps.length ≤ 1 := by
  unfold zombieProtos
  simp only []
  split
  · exact ⟨[], rfl, by simp⟩
  · next h =>
    have h2 : ((assets.length : ℚ)) ≠ 0 :=
      filter_nonempty_src (p := fun (a : Asset) => decide (daysSince a.last_seen > 90))
        (by simpa [zombiesOf] using h)
    simp only [pyDivQ, if_neg h2]
    exact ⟨_, rfl, by simp⟩

theorem staleProtos_ok (assets : List Asset) :
    ∃ ps, staleProtos assets = .ok ps ∧ ps.length ≤ 1 := by
  unfold staleProtos
  simp only []
  split
  · exact ⟨[], rfl, by simp⟩
  · next h =>
    have h2 : ((assets.length : ℚ)) ≠ 0 :=
      filter_nonempty_src (p := fun (a : Asset) =>
        decide (30 < daysSince a.last_seen) && decide (daysSince a.last_seen ≤ 90))
        (by simpa [staleTierOf] using h)
    simp only [pyDivQ, if_neg h2]
    exact ⟨_, rfl, by simp⟩

theorem noAuthProtos_ok (assets : List Asset) :
    ∃ ps, noAuthProtos assets = .ok ps ∧ ps.length ≤ 1 := by
  unfold noAuthProtos
  simp only []
  split
  · next h =>
    have h1 : ¬((noAuthScanOf assets).isEmpty = true) := by
      simp only [Bool.and_eq_true, Bool.not_eq_true'] at h
      simp [h.1]
    have h2 : ((assets.length : ℚ)) ≠ 0 :=
      filter_nonempty_src (p := fun (a : Asset) =>
        !a.last_authenticated_scan_date && a.has_plugin_results)
        (by simpa [noAuthScanOf] using h1)
    simp only [pyDivQ, if_neg h2]
    exact ⟨_, rfl, by simp⟩
  · exact ⟨[], rfl, by simp⟩

theorem checkAssetStalenessP_ok (assets : List Asset) :
    ∃ ps, checkAssetStalenessP assets = .ok ps ∧ ps.length ≤ 4 := by
  obtain ⟨z, hz, hzl⟩ := zombieProtos_ok assets
  obtain ⟨s, hs, hsl⟩ := staleProtos_ok assets
  obtain ⟨n, hn, hnl⟩ := noAuthProtos_ok assets
  have hcl := cloudProtos_len assets
  refine ⟨z ++ s ++ cloudProtos assets ++ n, ?_,
    by simp only [List.length_append]; omega⟩
  unfold checkAssetStalenessP
  rw [hz, hs, hn]
  rfl

theorem checkAssetTaggingP_ok (assets : List Asset) :
    ∃ ps, checkAssetTaggingP assets = .ok ps ∧ ps.length ≤ 1 := by
  unfold checkAssetTaggingP
  simp only []
  split
  · exact ⟨[], rfl, by simp⟩
  · next h =>
    simp only [pyDivQ, if_neg (filter_nonempty_src h)]
    exact ⟨_, rfl, by simp⟩

theorem allProtos_ok (inp : Inputs) :
    ∃ ps, allProtos inp = .ok ps ∧ ps.length ≤ 12 := by
  obtain ⟨p3, h3, h3l⟩ := checkCredentialCoverageP_ok inp.scans
  obtain ⟨p6, h6, h6l⟩ := checkAssetStalenessP_ok inp.assets
  obtain ⟨p7, h7, h7l⟩ := checkAssetTaggingP_ok inp.assets
  have b1 := checkScannerHealthP_len inp.scanners
  have b2 := checkScannerLinkingP_len inp.scanners
  have b4 := checkCredentialsConfiguredP_len inp.credentials
  have b5 := checkNetworksP_len inp.networks
  have b8 := checkScanFrequencyP_len inp.scans
  refine ⟨checkScannerHealthP inp.scanners ++ checkScannerLinkingP inp.scanners
    ++ p3 ++ checkCredentialsConfiguredP inp.credentials ++ checkNetworksP inp.networks
    ++ p6 ++ p7 ++ checkScanFrequencyP inp.scans, ?_,
    by simp only [List.length_append]; omega⟩
  unfold allProtos
  rw [h3, h6, h7]
  rfl

theorem runAllChecks_eq (inp : Inputs) (st : AnalyzerState) (ps : List Proto)
    (hp : allProtos inp = .ok ps) :
    runAllChecks inp st
      = .ok (ps.foldl addProto st, (ps.foldl addProto st).findings) := by
  simp [runAllChecks, hp]

theorem fmtId_range_pairwise_ne : ∀ n : ℕ, n ≤ 12 →
    ((List.range n).map (fun i => fmtId (i + 1))).Pairwise (fun a b => a ≠ b) := by
  decide

end GapAnalyzer

open GapAnalyzer in
/-- C8: on a fresh analyzer, whatever the input and whichever checks fire,
the returned findings have ids `F-NNN` where `NNN` is the zero-padded
1-based ordinal of emission (so `F-001`, `F-002`, …, strictly increasing in
emission order), and the ids are pairwise distinct. -/
theorem c8_finding_ids (inp : Inputs) (st : AnalyzerState) (l : List Finding)
    (h : runAllChecks inp initState = .ok (st, l)) :
    l.map (fun f => f.id) = (List.range l.length).map (fun i => fmtId (i + 1))
    ∧ (l.map (fun f => f.id)).Pairwise (fun a b => a ≠ b) := by
  obtain ⟨ps, hp, hlen⟩ := allProtos_ok inp
  rw [runAllChecks_eq inp initState ps hp] at h
  have h2 : (ps.foldl addProto initState).findings = l := by
    have := Except.ok.inj h
    exact congrArg Prod.snd this
  rw [initState, foldl_addProto] at h2
  simp only [List.nil_append] at h2
  subst h2
  have hl : (assignIds 0 ps).length = ps.length := assignIds_length 0 ps
  constructor
  · rw [hl, assignIds_map_id]
    apply List.map_congr_left
    intro i _
    congr 1
    omega
  · rw [assignIds_map_id]
    have : (List.range ps.length).map (fun i => fmtId (0 + i + 1))
        = (List.range ps.length).map (fun i => fmtId (i + 1)) := by
      apply List.map_congr_left
      intro i _
      congr 1
      omega
    rw [this]
    exact fmtId_range_pairwise_ne ps.length hlen

open GapAnalyzer in
/-- C8 witness: the empty input (only the no-shared-credentials check fires,
one finding `F-001`). -/
theorem c8_finding_ids_witness :
    ((List.foldl addProto initState (checkCredentialsConfiguredP [])).findings.map
        (fun f => f.id)
      = (List.range (List.foldl addProto initState
          (checkCredentialsConfiguredP [])).findings.length).map
          (fun i => fmtId (i + 1)))
    ∧ ((List.foldl addProto initState (checkCredentialsConfiguredP [])).findings.map
        (fun f => f.id)).Pairwise (fun a b => a ≠ b) :=
  c8_finding_ids emptyInputs _ _
    (runAllChecks_eq emptyInputs initState (checkCredentialsConfiguredP []) rfl)

open GapAnalyzer in
/-- C9: `run_all_checks` is deterministic across fresh analyzer instances:
for a fixed input snapshot (and fixed current time, which the timestamp
embedding fixes), two runs from freshly initialized state yield identical
ordered finding lists, every field included. -/
theorem c9_deterministic (inp : Inputs) (r1 r2 : AnalyzerState × List Finding)
    (h1 : runAllChecks inp initState = .ok r1)
    (h2 : runAllChecks inp initState = .ok r2) :
    r1.2 = r2.2 := by
  rw [h1] at h2
  rw [Except.ok.inj h2]

open GapAnalyzer in
/-- C9 witness: the empty input, both hypotheses discharged on the same
concrete run. -/
theorem c9_deterministic_witness :
    (List.foldl addProto initState (checkCredentialsConfiguredP []),
      (List.foldl addProto initState (checkCredentialsConfiguredP [])).findings).2
    = (List.foldl addProto initState (checkCredentialsConfiguredP []),
      (List.foldl addProto initState (checkCredentialsConfiguredP [])).findings).2 :=
  c9_deterministic emptyInputs _ _
    (runAllChecks_eq emptyInputs initState (checkCredentialsConfiguredP []) rfl)
    (runAllChecks_eq emptyInputs initState (checkCredentialsConfiguredP []) rfl)

open GapAnalyzer in
/-- C10: calling `run_all_checks` a second time on the same analyzer
instance does not reset its state: the second call re-runs the checks on the
unchanged inputs and returns the accumulated list — the first call's
findings followed by a fresh copy of them whose id numbering continues from
the first call — so the returned list is twice as long as a single run's. -/
theorem c10_run_twice (inp : Inputs) (ps : List Proto)
    (hp : allProtos inp = .ok ps) :
    runAllChecks inp initState
      = .ok ({ counter := ps.length, findings := assignIds 0 ps }, assignIds 0 ps)
    ∧ runAllChecks inp { counter := ps.length, findings := assignIds 0 ps }
      = .ok ({ counter := 2 * ps.length,
               findings := assignIds 0 ps ++ assignIds ps.length ps },
        assignIds 0 ps ++ assignIds ps.length ps)
    ∧ (assignIds 0 ps ++ assignIds ps.length ps).length
      = 2 * (assignIds 0 ps).length
    ∧ (assignIds ps.length ps).map eraseId = (assignIds 0 ps).map eraseId
    ∧ (assignIds ps.length ps).map (fun f => f.id)
      = (List.range ps.length).map (fun i => fmtId (ps.length + i + 1)) := by
  refine ⟨?_, ?_, ?_, assignIds_map_eraseId ps.length ps, assignIds_map_id ps.length ps⟩
  · rw [runAllChecks_eq inp initState ps hp, initState, foldl_addProto]
    simp
  · rw [runAllChecks_eq inp { counter := ps.length, findings := assignIds 0 ps } ps hp,
      foldl_addProto]
    have h2 : ps.length + ps.length = 2 * ps.length := by omega
    rw [h2]
  · simp only [List.length_append, assignIds_length]
    omega

open GapAnalyzer in
/-- C10 witness: the empty input (one finding per run; ids `F-001` then
`F-002`). -/
theorem c10_run_twice_witness :
    runAllChecks emptyInputs initState
      = .ok ({ counter := (checkCredentialsConfiguredP []).length,
               findings := assignIds 0 (checkCredentialsConfiguredP []) },
        assignIds 0 (checkCredentialsConfiguredP []))
    ∧ runAllChecks emptyInputs
        { counter := (checkCredentialsConfiguredP []).length,
          findings := assignIds 0 (checkCredentialsConfiguredP []) }
      = .ok ({ counter := 2 * (checkCredentialsConfiguredP []).length,
               findings := assignIds 0 (checkCredentialsConfiguredP [])
                 ++ assignIds (checkCredentialsConfiguredP []).length
                     (checkCredentialsConfiguredP []) },
        assignIds 0 (checkCredentialsConfiguredP [])
          ++ assignIds (checkCredentialsConfiguredP []).length
              (checkCredentialsConfiguredP []))
    ∧ (assignIds 0 (checkCredentialsConfiguredP [])
        ++ assignIds (checkCredentialsConfiguredP []).length
            (checkCredentialsConfiguredP [])).length
      = 2 * (assignIds 0 (checkCredentialsConfiguredP [])).length
    ∧ (assignIds (checkCredentialsConfiguredP []).length
        (checkCredentialsConfiguredP [])).map eraseId
      = (assignIds 0 (checkCredentialsConfiguredP [])).map eraseId
    ∧ (assignIds (checkCredentialsConfiguredP []).length
        (checkCredentialsConfiguredP [])).map (fun f => f.id)
      = (List.range (checkCredentialsConfiguredP []).length).map
          (fun i => fmtId ((checkCredentialsConfiguredP []).length + i + 1)) :=
  c10_run_twice emptyInputs (checkCredentialsConfiguredP []) rfl

open GapAnalyzer in
/-- C7: with any (or all) of the five input collections empty,
`run_all_checks` completes without raising: in particular no division is
ever evaluated with a zero-length denominator (every percentage computation
sits behind a non-emptiness guard), which the checked-division embedding
records as an `Except.ok` result. -/
theorem c7_empty_inputs_ok (inp : Inputs)
    (h : inp.scanners = [] ∨ inp.assets = [] ∨ inp.scans = []
      ∨ inp.credentials = [] ∨ inp.networks = []) :
    ∃ r, runAllChecks inp initState = .ok r := by
  obtain ⟨ps, hp, _⟩ := allProtos_ok inp
  exact ⟨_, runAllChecks_eq inp initState ps hp⟩

open GapAnalyzer in
/-- C7 witness: all five collections empty. -/
theorem c7_empty_inputs_ok_witness :
    ∃ r, runAllChecks emptyInputs initState = .ok r :=
  c7_empty_inputs_ok emptyInputs (Or.inl rfl)

open GapAnalyzer in
/-- C5: a missing or unparseable `last_run` timestamp on one scan never
aborts the scan-frequency check: that scan is classified stale (its name
joins the stale list exactly where it stands) and the check completes over
the remaining scans, emitting its finding. -/
theorem c5_scan_frequency_robust (pre post : List Scan) (s : Scan)
    (hname : s.name ≠ "") (hen : s.enabled ≠ some false)
    (hbad : s.last_run = none ∨ s.last_run = some none) :
    staleScanNames (pre ++ s :: post)
      = staleScanNames pre ++ s.name :: staleScanNames post
    ∧ checkScanFrequencyP (pre ++ s :: post) ≠ [] := by
  have hdecomp : staleScanNames (pre ++ s :: post)
      = staleScanNames pre ++ s.name :: staleScanNames post := by
    induction pre with
    | nil =>
      rcases hbad with h | h <;>
        simp [staleScanNames, hname, hen, h]
    | cons a t ih =>
      rcases hlr : a.last_run with _ | lr
      · simp only [List.cons_append, staleScanNames, hlr]
        split_ifs <;> simp [ih]
      · rcases lr with _ | d
        · simp only [List.cons_append, staleScanNames, hlr]
          split_ifs <;> simp [ih]
        · simp only [List.cons_append, staleScanNames, hlr]
          split_ifs <;> simp [ih]
  refine ⟨hdecomp, ?_⟩
  unfold checkScanFrequencyP
  simp only [hdecomp]
  have hne : staleScanNames pre ++ s.name :: staleScanNames post ≠ [] := by simp
  simp [List.isEmpty_eq_true, hne]

open GapAnalyzer in
/-- C5 witness: a single enabled, named scan with a missing timestamp. -/
theorem c5_scan_frequency_robust_witness :
    staleScanNames ([] ++ { name := "s1", is_ghost := false,
                            credential_enabled := false, last_run := none,
                            enabled := none } :: [])
      = staleScanNames []
        ++ ({ name := "s1", is_ghost := false, credential_enabled := false,
              last_run := none, enabled := none } : Scan).name :: staleScanNames []
    ∧ checkScanFrequencyP ([] ++ { name := "s1", is_ghost := false,
                                   credential_enabled := false, last_run := none,
                                   enabled := none } :: []) ≠ [] :=
  c5_scan_frequency_robust [] [] _ (by decide) (by decide) (Or.inl rfl)

namespace GapAnalyzer
theorem zombieProtos_spec (assets : List Asset)
    (h : ¬(zombiesOf assets).isEmpty = true) :
    ∃ zp, zombieProtos assets = .ok [zp]
      ∧ zp.severity = (if round1 (((zombiesOf assets).length : ℚ)
            / ((assets.length : ℚ)) * 100) > 30
          then Severity.critical else Severity.high) := by
  unfold zombieProtos
  simp only []
  rw [if_neg h]
  have h2 : ((assets.length : ℚ)) ≠ 0 :=
    filter_nonempty_src (p := fun (a : Asset) => decide (daysSince a.last_seen > 90))
      (by simpa [zombiesOf] using h)
  simp only [pyDivQ, if_neg h2]
  exact ⟨_, rfl, rfl⟩

theorem staleProtos_spec (assets : List Asset)
    (h : ¬(staleTierOf assets).isEmpty = true) :
    ∃ sp, staleProtos assets = .ok [sp] ∧ sp.severity = Severity.medium := by
  unfold staleProtos
  simp only []
  rw [if_neg h]
  have h2 : ((assets.length : ℚ)) ≠ 0 :=
    filter_nonempty_src (p := fun (a : Asset) =>
      decide (30 < daysSince a.last_seen) && decide (daysSince a.last_seen ≤ 90))
      (by simpa [staleTierOf] using h)
  simp only [pyDivQ, if_neg h2]
  exact ⟨_, rfl, rfl⟩

theorem unauthProtos_spec (scans : List Scan)
    (h : ¬(activeUnauthOf scans).isEmpty = true) :
    ∃ u, unauthProtos scans = .ok [u]
      ∧ u.severity = (if round1 (((activeUnauthOf scans).length : ℚ)
            / (((activeOf scans).length : ℚ)) * 100) > 50
          then Severity.critical else Severity.high)
      ∧ u.description = toString (activeUnauthOf scans).length ++ " of "
          ++ toString (activeOf scans).length ++ " active scans ("
          ++ fmtPct (round1 (((activeUnauthOf scans).length : ℚ)
              / (((activeOf scans).length : ℚ)) * 100))
          ++ "%) run unauthenticated. Unauthenticated scans detect only ~30% of vulnerabilities. ("
          ++ toString ((activeOf scans).length - (activeUnauthOf scans).length)
          ++ " active scans have credentials.)" := by
  unfold unauthProtos
  simp only []
  rw [if_neg h]
  have hat : (activeOf scans).length ≠ 0 := by
    intro h0
    have : activeOf scans = [] := List.length_eq_zero.1 h0
    rw [activeUnauthOf, this] at h
    simp at h
  rw [if_neg hat]
  have h2 : (((activeOf scans).length : ℚ)) ≠ 0 := Nat.cast_ne_zero.mpr hat
  simp only [pyDivQ, if_neg h2]
  exact ⟨_, rfl, rfl, rfl⟩

end GapAnalyzer

open GapAnalyzer in
/-- C3 (amended): a missing or unparseable `last_seen` is treated as
maximally stale (sentinel 999 days, hence zombie tier); an asset is in the
zombie tier exactly when its days-since-last-seen exceed 90, and the zombie
finding is Critical exactly when the zombie percentage of all assets,
*rounded to one decimal*, exceeds 30 (in particular 35 zombies of 100 assets
yield Critical); the stale tier is exactly 30 < days ≤ 90 with the upper
bound inclusive, and yields a Medium finding. -/
theorem c3_asset_staleness_amended :
    (∀ (assets : List Asset), ∀ a ∈ assets,
      (a.last_seen = none ∨ a.last_seen = some none) →
        daysSince a.last_seen = 999 ∧ a ∈ zombiesOf assets)
    ∧ (∀ assets : List Asset,
        zombiesOf assets = assets.filter (fun a => decide (daysSince a.last_seen > 90)))
    ∧ (∀ assets : List Asset, ¬(zombiesOf assets).isEmpty = true →
        ∃ zp, zombieProtos assets = .ok [zp]
          ∧ zp.severity = (if round1 (((zombiesOf assets).length : ℚ)
                / ((assets.length : ℚ)) * 100) > 30
              then Severity.critical else Severity.high))
    ∧ (∀ assets : List Asset,
        staleTierOf assets = assets.filter (fun a =>
          decide (30 < daysSince a.last_seen) && decide (daysSince a.last_seen ≤ 90)))
    ∧ (∀ assets : List Asset, ¬(staleTierOf assets).isEmpty = true →
        ∃ sp, staleProtos assets = .ok [sp] ∧ sp.severity = Severity.medium)
    ∧ (∃ zp, zombieProtos assets100 = .ok [zp] ∧ zp.severity = Severity.critical) := by
  refine ⟨?_, fun _ => rfl, zombieProtos_spec, fun _ => rfl, staleProtos_spec, ?_⟩
  · intro assets a ha hbad
    have hd : daysSince a.last_seen = 999 := by
      rcases hbad with h | h <;> rw [h] <;> rfl
    refine ⟨hd, List.mem_filter.2 ⟨ha, ?_⟩⟩
    rw [hd]
    decide
  · have hz : zombiesOf assets100 = List.replicate 35 zombieAsset := by
      simp [zombiesOf, assets100, List.filter_append, List.filter_replicate,
        zombieAsset, freshAsset, daysSince]
    obtain ⟨zp, h1, h2⟩ := zombieProtos_spec assets100 (by rw [hz]; decide)
    refine ⟨zp, h1, ?_⟩
    rw [h2, hz]
    have hlen : assets100.length = 100 := by simp [assets100]
    rw [hlen]
    norm_num [round1, pyRound]

set_option maxRecDepth 4000 in
open GapAnalyzer in
/-- C3 counterexample: with 61 zombies among 203 assets the zombie tier is
61/203 = 30.049…% of all assets — it *exceeds 30%* — yet the code compares
the percentage rounded to one decimal (30.0 > 30 is false) and emits HIGH,
not Critical as the claim demands. -/
theorem c3_asset_staleness_counterexample :
    (∃ zp, zombieProtos assets203 = .ok [zp] ∧ zp.severity = Severity.high)
    ∧ ((zombiesOf assets203).length : ℚ) / ((assets203.length : ℚ)) > 30 / 100 := by
  have hz : zombiesOf assets203 = List.replicate 61 zombieAsset := by
    simp [zombiesOf, assets203, List.filter_append, List.filter_replicate,
      zombieAsset, freshAsset, daysSince]
  have hlen : assets203.length = 203 := by simp [assets203]
  constructor
  · obtain ⟨zp, h1, h2⟩ := zombieProtos_spec assets203 (by rw [hz]; decide)
    refine ⟨zp, h1, ?_⟩
    rw [h2, hz, hlen]
    norm_num [round1, pyRound]
  · rw [hz, hlen]
    norm_num

set_option maxRecDepth 4000 in
open GapAnalyzer in
/-- C3 witness: the amended zombie-severity conjunct applied to the 203-asset
input. -/
theorem c3_asset_staleness_witness :
    ∃ zp, zombieProtos assets203 = .ok [zp]
      ∧ zp.severity = (if round1 (((zombiesOf assets203).length : ℚ)
            / ((assets203.length : ℚ)) * 100) > 30
          then Severity.critical else Severity.high) :=
  c3_asset_staleness_amended.2.2.1 assets203 (by
    have hz : zombiesOf assets203 = List.replicate 61 zombieAsset := by
      simp [zombiesOf, assets203, List.filter_append, List.filter_replicate,
        zombieAsset, freshAsset, daysSince]
    rw [hz]
    decide)

open GapAnalyzer in
/-- C4 (amended): whenever at least one active (non-ghost) scan lacks
credential enablement, exactly one unauthenticated-active-scans finding is
emitted by the credential-coverage check (after the optional ghost finding);
its severity is Critical exactly when the unauthenticated percentage of
active scans *rounded to one decimal* exceeds 50 (in particular 6 of 10
active scans → 60.0% → Critical), else High; and its description states the
unauthenticated count, the percentage, and the count of active scans that do
have credentials. -/
theorem c4_credential_coverage_amended :
    (∀ scans : List Scan, ¬(activeUnauthOf scans).isEmpty = true →
      ∃ g u, ghostProtos scans = .ok g
        ∧ unauthProtos scans = .ok [u]
        ∧ checkCredentialCoverageP scans = .ok (g ++ [u])
        ∧ u.severity = (if round1 (((activeUnauthOf scans).length : ℚ)
              / (((activeOf scans).length : ℚ)) * 100) > 50
            then Severity.critical else Severity.high)
        ∧ u.description = toString (activeUnauthOf scans).length ++ " of "
            ++ toString (activeOf scans).length ++ " active scans ("
            ++ fmtPct (round1 (((activeUnauthOf scans).length : ℚ)
                / (((activeOf scans).length : ℚ)) * 100))
            ++ "%) run unauthenticated. Unauthenticated scans detect only ~30% of vulnerabilities. ("
            ++ toString ((activeOf scans).length - (activeUnauthOf scans).length)
            ++ " active scans have credentials.)")
    ∧ (∃ u, unauthProtos scans10 = .ok [u] ∧ u.severity = Severity.critical) := by
  constructor
  · intro scans h
    obtain ⟨g, hg, _⟩ := ghostProtos_ok scans
    obtain ⟨u, hu, hsev, hdesc⟩ := unauthProtos_spec scans h
    refine ⟨g, u, hg, hu, ?_, hsev, hdesc⟩
    unfold checkCredentialCoverageP
    rw [hg, hu]
    rfl
  · have ha : activeOf scans10 = scans10 := by decide
    have hun : activeUnauthOf scans10 = List.replicate 6 unauthScan := by decide
    obtain ⟨u, hu, hsev, _⟩ := unauthProtos_spec scans10 (by rw [hun]; decide)
    refine ⟨u, hu, ?_⟩
    rw [hsev, hun, ha]
    have hl : scans10.length = 10 := by simp [scans10]
    rw [show (List.replicate 6 unauthScan).length = 6 from by simp, hl]
    norm_num [round1, pyRound]

set_option maxRecDepth 8000 in
open GapAnalyzer in
/-- C4 counterexample: with 501 unauthenticated among 1001 active scans the
unauthenticated fraction is 501/1001 = 50.049…% — it *exceeds 50%* — yet the
code compares the percentage rounded to one decimal (50.0 > 50 is false) and
emits HIGH, not Critical as the claim demands. -/
theorem c4_credential_coverage_counterexample :
    (∃ u, unauthProtos scans1001 = .ok [u] ∧ u.severity = Severity.high)
    ∧ ((activeUnauthOf scans1001).length : ℚ) / (((activeOf scans1001).length : ℚ))
      > 50 / 100 := by
  have ha : activeOf scans1001 = scans1001 := by decide
  have hun : activeUnauthOf scans1001 = List.replicate 501 unauthScan := by decide
  have hl : scans1001.length = 1001 := by simp [scans1001]
  constructor
  · obtain ⟨u, hu, hsev, _⟩ := unauthProtos_spec scans1001 (by rw [hun]; decide)
    refine ⟨u, hu, ?_⟩
    rw [hsev, hun, ha]
    rw [show (List.replicate 501 unauthScan).length = 501 from by simp, hl]
    norm_num [round1, pyRound]
  · rw [hun, ha, hl]
    rw [show (List.replicate 501 unauthScan).length = 501 from by simp]
    norm_num

set_option maxRecDepth 8000 in
open GapAnalyzer in
/-- C4 witness: the amended statement applied to the 10-scan scenario
input. -/
theorem c4_credential_coverage_witness :
    ∃ g u, ghostProtos scans10 = .ok g
      ∧ unauthProtos scans10 = .ok [u]
      ∧ checkCredentialCoverageP scans10 = .ok (g ++ [u])
      ∧ u.severity = (if round1 (((activeUnauthOf scans10).length : ℚ)
            / (((activeOf scans10).length : ℚ)) * 100) > 50
          then Severity.critical else Severity.high)
      ∧ u.description = toString (activeUnauthOf scans10).length ++ " of "
          ++ toString (activeOf scans10).length ++ " active scans ("
          ++ fmtPct (round1 (((activeUnauthOf scans10).length : ℚ)
              / (((activeOf scans10).length : ℚ)) * 100))
          ++ "%) run unauthenticated. Unauthenticated scans detect only ~30% of vulnerabilities. ("
          ++ toString ((activeOf scans10).length - (activeUnauthOf scans10).length)
          ++ " active scans have credentials.)" :=
  c4_credential_coverage_amended.1 scans10 (by decide)
